import Mathlib

/-!
Verification of the outbound-message pipeline of the Noosphere Collective Bot
(`src/main.py`): the revert-dispatch reconciler `check_reverts`, the sliding
window rate limiter `check_rate_limit`, the document renderer
`fetch_doc_content_and_images`, and the announcement dispatchers `announce`
and `announce_cmd`.

Python strings are modelled as `List Char`; the handful of `str` methods the
source uses (`strip`, `startswith`, `lower`, the substring test `in`,
`split`, `join`, `replace`) are given as structural-recursive functions so
that every concrete run evaluates inside the kernel.  Timestamps
(`datetime.now().timestamp()`, a real number) are modelled as integers; the
rate-limit logic uses only subtraction and order comparison, which the
integer model reflects exactly.  Network calls (Discord user fetch and send,
HTTP image downloads, spreadsheet cell writes) are external collaborators,
modelled as oracles supplied in an environment record; an `Except.error`
result (or a `false` success flag) models the call raising an exception.
-/

namespace NoosphereBot

/-- Character list of a string literal, the `List Char` rendering of a Python
string constant. -/
def lit (s : String) : List Char := s.data

/-- Python `str.strip()` (with no argument): remove leading and trailing
whitespace. -/
def pyStrip (s : List Char) : List Char :=
  ((s.dropWhile Char.isWhitespace).reverse.dropWhile Char.isWhitespace).reverse

/-- Python `s.startswith(p)` on character lists. -/
def startsWithL : List Char → List Char → Bool
  | _, [] => true
  | [], _ :: _ => false
  | c :: s, p :: ps => c = p && startsWithL s ps

/-- Python `s.lower()`; the extensions and the `image` content-type prefix the
source compares against are ASCII, for which `Char.toLower` agrees with
Python. -/
def lowerL (s : List Char) : List Char := s.map Char.toLower

/-- Python substring test `pat in s`, for the non-empty patterns the source
uses: true iff `pat` occurs contiguously in `s`. -/
def containsSub (s pat : List Char) : Bool :=
  match s with
  | [] => startsWithL [] pat
  | c :: t => startsWithL (c :: t) pat || containsSub t pat

/-- Python `s.split(sep)` for a one-character separator, which is how the
source splits on `"\n"` and on `"/"`: e.g. splitting the empty list yields
`[[]]`, and a trailing separator yields a trailing empty piece. -/
def splitOnChar (sep : Char) : List Char → List (List Char)
  | [] => [[]]
  | c :: rest =>
    let r := splitOnChar sep rest
    if c = sep then [] :: r
    else
      match r with
      | [] => [[c]]
      | h :: t => (c :: h) :: t

/-- Python `sep.join(parts)` for a one-character separator (the source joins
with `"\n"`). -/
def joinWith (sep : Char) : List (List Char) → List Char
  | [] => []
  | [x] => x
  | x :: y :: rest => x ++ sep :: joinWith sep (y :: rest)

/-- Worker for `replaceAll`, structurally recursive on a fuel argument that is
always at least the length of the remaining list. -/
def replaceAllAux (pat repl : List Char) : Nat → List Char → List Char
  | _, [] => []
  | 0, s => s
  | Nat.succ n, c :: t =>
    if pat.isEmpty = false && startsWithL (c :: t) pat then
      repl ++ replaceAllAux pat repl n (List.drop (pat.length - 1) t)
    else
      c :: replaceAllAux pat repl n t

/-- Python `s.replace(pat, repl)` for a non-empty pattern: replace every
non-overlapping occurrence, scanning left to right. -/
def replaceAll (s pat repl : List Char) : List Char :=
  replaceAllAux pat repl s.length s

/-- Python `url.split("/")[-1]`: the last component of a slash-separated
string (`split` never returns an empty list, so the default is unreachable). -/
def lastComponent (s : List Char) : List Char := (splitOnChar '/' s).getLastD []

/-- Source line 29: `RATE_LIMIT = 10`. -/
def RATE_LIMIT : Nat := 10

/-- Source line 30: `RATE_LIMIT_WINDOW = 60` (seconds). -/
def RATE_LIMIT_WINDOW : ℤ := 60

/-- The `usage_tracker` state (line 31): `defaultdict(list)` mapping an actor
key (a user-id string) to its list of recorded call timestamps. -/
@[ext]
structure Tracker where
  usage : String → List ℤ

/-- A fresh `defaultdict(list)`: every key starts with the empty list. -/
def emptyTracker : Tracker := ⟨fun _ => []⟩

/-- Source lines 144-149, `check_rate_limit(user_id)`: prune the actor's
timestamps to those within the window, store the pruned list back, and return
whether fewer than `RATE_LIMIT` remain.  The explicit `now` argument models
`datetime.now().timestamp()`. -/
def check_rate_limit (now : ℤ) (user_id : String) (tr : Tracker) : Bool × Tracker :=
  let usage := (tr.usage user_id).filter (fun t => decide (now - t < RATE_LIMIT_WINDOW))
  (decide (usage.length < RATE_LIMIT),
   ⟨fun u => if u = user_id then usage else tr.usage u⟩)

/-- Source lines 161 and 185: `usage_tracker[uid].append(datetime.now().timestamp())`,
the recording step the dispatchers perform after a successful admission. -/
def record_usage (now : ℤ) (user_id : String) (tr : Tracker) : Tracker :=
  ⟨fun u => if u = user_id then tr.usage user_id ++ [now] else tr.usage u⟩

/-- A sequence of dispatcher-style calls for one actor: at each timestamp,
check the rate limit and, exactly when admitted, record the usage (the
pattern of lines 158-161).  Returns the admission verdicts in order and the
final tracker. -/
def runCalls (uid : String) : List ℤ → Tracker → List Bool × Tracker
  | [], tr => ([], tr)
  | t :: ts, tr =>
    let res := check_rate_limit t uid tr
    let tr2 := if res.1 then record_usage t uid res.2 else res.2
    let rest := runCalls uid ts tr2
    (res.1 :: rest.1, rest.2)

/-- One spreadsheet row as read by `check_reverts` (lines 80-82):
`row.get("User Id")`, `row.get("Revert")`, `row.get("Revert Sent")`.  The
revert message is a character list (it is split and trimmed); the status cell
is compared only against the literal `"done"`. -/
structure RevertRow where
  userId : String
  revert : List Char
  revertSent : String
deriving DecidableEq

/-- Oracles for the external collaborators `check_reverts` calls.
`fetchUserOk` is whether `bot.fetch_user(int(user_id))` succeeds (false
models either an unparsable id or a failed fetch, both raising).  `imgGet`
is the HTTP GET of an image line: `Except.error` models the request raising,
`Except.ok (status, body)` a completed response.  `sendOk` is whether
`user.send` succeeds, `updateCellOk` whether `update_cell` at the given
(row, column) succeeds; `false` models the call raising. -/
structure Env where
  fetchUserOk : String → Bool
  imgGet : List Char → Except Unit (Nat × List Char)
  sendOk : String → Bool
  updateCellOk : Nat → Nat → Bool

/-- Observable effects of one `check_reverts` tick: a direct message sent to a
user (`content=` and `files=` arguments, `none` modelling Python `None`,
files as (filename, bytes) pairs), a spreadsheet cell write, or the logging
of a caught per-row exception (line 101). -/
inductive Ev where
  | sent (userId : String) (content : Option (List Char))
      (files : Option (List (List Char × List Char)))
  | wroteCell (row col : Nat) (value : String)
  | logged (userId : String)
deriving DecidableEq

/-- Source line 89: a message line is an image link iff its stripped form
starts with `"http"` and one of the four extensions occurs anywhere in its
lowercased (unstripped) form. -/
def isImageLine (part : List Char) : Bool :=
  startsWithL (pyStrip part) (lit "http") &&
  ([lit ".jpg", lit ".jpeg", lit ".png", lit ".gif"].any
    (fun ext => containsSub (lowerL part) ext))

/-- Source lines 86-96, the per-line loop of `check_reverts`: image lines are
fetched (status 200 attaches a file named by the last URL path component, any
other status contributes nothing, a raised request aborts the row), other
lines are stripped and kept as text in order. -/
def collectParts (env : Env) :
    List (List Char) → Except Unit (List (List Char) × List (List Char × List Char))
  | [] => Except.ok ([], [])
  | part :: rest =>
    if isImageLine part then
      match env.imgGet (pyStrip part) with
      | Except.error e => Except.error e
      | Except.ok (status, body) =>
        match collectParts env rest with
        | Except.error e => Except.error e
        | Except.ok (ts, fs) =>
          if status = 200 then
            Except.ok (ts, (lastComponent (pyStrip part), body) :: fs)
          else
            Except.ok (ts, fs)
    else
      match collectParts env rest with
      | Except.error e => Except.error e
      | Except.ok (ts, fs) => Except.ok (pyStrip part :: ts, fs)

/-- Source lines 79-101, the body of the `check_reverts` loop for the row at
0-based position `i`: rows with an empty message or status `"done"` are
skipped; otherwise the user is fetched, the message lines are classified and
fetched, the direct message is sent (`content` is the joined text or `None`
if empty, `files` is the list or `None` if empty), and on success cell
(i + 2, 9) is set to `"done"`.  Any raised step is caught and logged and
leaves the status cell unwritten. -/
def processRow (env : Env) (i : Nat) (row : RevertRow) : List Ev :=
  if row.revert ≠ [] ∧ row.revertSent ≠ "done" then
    if env.fetchUserOk row.userId then
      match collectParts env (splitOnChar '\n' row.revert) with
      | Except.error _ => [Ev.logged row.userId]
      | Except.ok (textParts, files) =>
        let messageText := joinWith '\n' textParts
        let content : Option (List Char) :=
          if messageText = [] then none else some messageText
        let filesOpt : Option (List (List Char × List Char)) :=
          if files = [] then none else some files
        if env.sendOk row.userId then
          if env.updateCellOk (i + 2) 9 then
            [Ev.sent row.userId content filesOpt, Ev.wroteCell (i + 2) 9 "done"]
          else
            [Ev.sent row.userId content filesOpt, Ev.logged row.userId]
        else
          [Ev.logged row.userId]
    else
      [Ev.logged row.userId]
  else
    []

/-- The enumerated loop of `check_reverts` starting at 0-based index `i`. -/
def processRows (env : Env) : Nat → List RevertRow → List Ev
  | _, [] => []
  | i, r :: rest => processRow env i r ++ processRows env (i + 1) rest

/-- Source lines 77-101, one `check_reverts()` tick over the fetched records. -/
def check_reverts (env : Env) (records : List RevertRow) : List Ev :=
  processRows env 0 records

/-- A guild role as used by the mention substitution (lines 121-126): its
name, the decimal text of its numeric id (the source interpolates
`f"@\x7brole.id\x7d"`), and its canonical mention token `role.mention`. -/
structure Role where
  name : List Char
  idText : List Char
  mention : List Char

/-- Source lines 121-126: for each role in enumeration order, replace every
occurrence of `@name` and then of `@id` with the role's mention token; each
check is made against the text as already rewritten by earlier roles. -/
def substRoles (roles : List Role) (text : List Char) : List Char :=
  roles.foldl
    (fun t r =>
      let t1 :=
        if containsSub t ('@' :: r.name) then replaceAll t ('@' :: r.name) r.mention
        else t
      if containsSub t1 ('@' :: r.idText) then replaceAll t1 ('@' :: r.idText) r.mention
      else t1)
    text

/-- One element of a paragraph in the document body: a text run or an inline
object reference. -/
inductive ParaElem where
  | textRun (content : List Char)
  | inlineObjectElement (inlineObjectId : List Char)

/-- One structural element of the document body: a paragraph or anything else
(skipped by the walk at line 117). -/
inductive BodyElem where
  | paragraph (elements : List ParaElem)
  | nonParagraph

/-- One entry of the document's `inlineObjects` table; `contentUri = none`
models the nested key lookup of line 112 raising `KeyError` (a missing or
malformed entry). -/
structure InlineObj where
  contentUri : Option (List Char)

/-- The fetched document tree: the `inlineObjects` table in iteration order
and the `body.content` element list. -/
structure GDoc where
  inlineObjects : List (List Char × InlineObj)
  bodyContent : List BodyElem

/-- The placeholder token `[image:oid]` emitted at line 129. -/
def placeholder (oid : List Char) : List Char := lit "[image:" ++ oid ++ lit "]"

/-- Source lines 110-115: the id-to-content-URI mapping, keeping exactly the
entries whose nested URI lookup succeeds. -/
def object_images (doc : GDoc) : List (List Char × List Char) :=
  doc.inlineObjects.filterMap (fun p => p.2.contentUri.map (fun u => (p.1, u)))

/-- Source lines 116-129: walk the body in order, substituting role mentions
in text runs when a guild's roles are available (`roles = none` models a
missing interaction or guild) and emitting a placeholder for each inline
object reference. -/
def renderText (roles : Option (List Role)) (body : List BodyElem) : List Char :=
  body.foldl
    (fun acc el =>
      match el with
      | BodyElem.nonParagraph => acc
      | BodyElem.paragraph elems =>
        elems.foldl
          (fun acc2 e =>
            match e with
            | ParaElem.textRun text =>
              acc2 ++ (match roles with
                       | none => text
                       | some rs => substRoles rs text)
            | ParaElem.inlineObjectElement oid => acc2 ++ placeholder oid)
          acc)
    []

/-- Oracle for the authenticated image download of lines 132-133:
`Except.error` models `requests.get` raising, `Except.ok` a response with
its status code, content-type header, and body bytes. -/
structure DocEnv where
  imgReq : List Char → Except Unit (Nat × List Char × List Char)

/-- Source lines 130-138: download each mapped URI; keep a file named
`image_<oid>.<ext>` exactly when the status is 200 and the content-type
starts with `image` (the extension is the last slash-component of the
content-type); a raised request or any other response is logged and skipped. -/
def fetchImages (env : DocEnv) (objImgs : List (List Char × List Char)) :
    List (List Char × List Char) :=
  objImgs.filterMap
    (fun p =>
      match env.imgReq p.2 with
      | Except.error _ => none
      | Except.ok (status, ctype, body) =>
        if status = 200 && startsWithL ctype (lit "image") then
          some (lit "image_" ++ p.1 ++ lit "." ++ (splitOnChar '/' ctype).getLastD [],
                body)
        else none)

/-- Source lines 139-140: for each id of the id-to-URI mapping (and only
those), delete every occurrence of its placeholder from the text. -/
def stripPlaceholders (objImgs : List (List Char × List Char)) (content : List Char) :
    List Char :=
  objImgs.foldl (fun c p => replaceAll c (placeholder p.1) []) content

/-- Source lines 104-141, `fetch_doc_content_and_images`: build the URI
mapping, render the body, download the mapped images, strip the mapped
placeholders, and return the stripped-and-trimmed text with the files. -/
def fetch_doc_content_and_images (env : DocEnv) (roles : Option (List Role))
    (doc : GDoc) : List Char × List (List Char × List Char) :=
  let content := renderText roles doc.bodyContent
  let objImgs := object_images doc
  let files := fetchImages env objImgs
  (pyStrip (stripPlaceholders objImgs content), files)

/-- Observable effects of one `announce` invocation: an actor-facing notice
(ephemeral followup or `ctx.send` text), a channel message with the given
`content=` argument, or a channel message carrying the image files. -/
inductive AnnEv where
  | notice (msg : List Char)
  | channelSend (content : Option (List Char))
  | channelFiles (files : List (List Char × List Char))
deriving DecidableEq

/-- Whether an event is an outbound message to the target channel (as opposed
to an actor-facing notice). -/
def isChannelMsg : AnnEv → Bool
  | AnnEv.notice _ => false
  | AnnEv.channelSend _ => true
  | AnnEv.channelFiles _ => true

/-- Source lines 152-174, the slash command `announce`: permission check,
rate-limit admission, usage recording, render (an `Except.error` render
models `fetch_doc_content_and_images` raising), the empty-document notice, or
else an unconditional `channel.send(content=text or None)` followed by
`channel.send(files=images)` when images exist, then the confirmation
followup.  The channel sends themselves are modelled as always succeeding. -/
def announce (allowed : Bool) (now : ℤ) (uid : String) (mention : List Char)
    (tr : Tracker) (render : Except Unit (List Char × List (List Char × List Char))) :
    List AnnEv × Tracker :=
  if allowed then
    let c := check_rate_limit now uid tr
    if c.1 then
      let tr2 := record_usage now uid c.2
      match render with
      | Except.error _ => ([AnnEv.notice (lit "Error sending announcement.")], tr2)
      | Except.ok (text, images) =>
        if text = [] ∧ images = [] then
          ([AnnEv.notice (lit "The document is empty.")], tr2)
        else
          ([AnnEv.channelSend (if text = [] then none else some text)]
             ++ (if images = [] then [] else [AnnEv.channelFiles images])
             ++ [AnnEv.notice (lit "Announcement sent to " ++ mention ++ lit ".")],
           tr2)
    else ([AnnEv.notice (lit "Rate limit hit.")], c.2)
  else ([AnnEv.notice (lit "You lack permission.")], tr)

/-- Source lines 177-196, the prefixed command `!announce`: identical dispatch
logic except that no confirmation message follows a successful send. -/
def announce_cmd (allowed : Bool) (now : ℤ) (uid : String) (tr : Tracker)
    (render : Except Unit (List Char × List (List Char × List Char))) :
    List AnnEv × Tracker :=
  if allowed then
    let c := check_rate_limit now uid tr
    if c.1 then
      let tr2 := record_usage now uid c.2
      match render with
      | Except.error _ => ([AnnEv.notice (lit "Error sending announcement.")], tr2)
      | Except.ok (text, images) =>
        if text = [] ∧ images = [] then
          ([AnnEv.notice (lit "The document is empty.")], tr2)
        else
          ([AnnEv.channelSend (if text = [] then none else some text)]
             ++ (if images = [] then [] else [AnnEv.channelFiles images]),
           tr2)
    else ([AnnEv.notice (lit "Rate limit hit.")], c.2)
  else ([AnnEv.notice (lit "You lack permission.")], tr)

/-- Environment in which every collaborator call succeeds and every image
request answers 200 with body `D`. -/
def envAllOk : Env :=
  ⟨fun _ => true, fun _ => Except.ok (200, lit "D"), fun _ => true, fun _ _ => true⟩

/-- Environment in which the Discord user fetch fails (models an unparsable
id or a raised fetch) and everything else succeeds. -/
def envC7 : Env :=
  ⟨fun _ => false, fun _ => Except.ok (200, []), fun _ => true, fun _ _ => true⟩

/-- Environment in which every image request answers status 404 and
everything else succeeds. -/
def envC4 : Env :=
  ⟨fun _ => true, fun _ => Except.ok (404, []), fun _ => true, fun _ _ => true⟩

/-- Environment in which every image request answers 200 with body `IMG`. -/
def envC5ok : Env :=
  ⟨fun _ => true, fun _ => Except.ok (200, lit "IMG"), fun _ => true, fun _ _ => true⟩

/-- Environment in which every image request answers status 503. -/
def envC5bad : Env :=
  ⟨fun _ => true, fun _ => Except.ok (503, []), fun _ => true, fun _ _ => true⟩

/-- The row of the C5 scenario: a pending revert of two lines, a text line
and an image URL. -/
def rowC5 : RevertRow := ⟨"7", lit "Please resubmit\nhttps://x/y.png", ""⟩

/-- A pending single-text-line row used as a failing-row fixture. -/
def rowC7 : RevertRow := ⟨"42", lit "hello", ""⟩

/-- A pending single-text-line row processed after the failing fixture. -/
def rowC7b : RevertRow := ⟨"7", lit "later", ""⟩

/-- A pending row whose only line is an image URL. -/
def rowC4 : RevertRow := ⟨"5", lit "https://a/b.png", ""⟩

/-- Document whose body references inline object `x` while the
`inlineObjects` table has no entry for it. -/
def docDangling : GDoc :=
  ⟨[], [BodyElem.paragraph [ParaElem.inlineObjectElement (lit "x")]]⟩

/-- Document with a text run and a reference to inline object `a`, whose
table entry has a well-formed content URI. -/
def docMapped : GDoc :=
  ⟨[(lit "a", ⟨some (lit "https://u/a.png")⟩)],
   [BodyElem.paragraph [ParaElem.textRun (lit "Hello "),
                        ParaElem.inlineObjectElement (lit "a")]]⟩

/-- Document-fetch environment in which every image download answers 404. -/
def denvFail : DocEnv := ⟨fun _ => Except.ok (404, [], [])⟩

/-- Document-fetch environment in which every image download answers 200 with
content-type `image/png` and body `BYTES`. -/
def denvOk : DocEnv := ⟨fun _ => Except.ok (200, lit "image/png", lit "BYTES")⟩

end NoosphereBot

namespace NoosphereBot

lemma check_rate_limit_fst (now : ℤ) (uid : String) (tr : Tracker) :
    (check_rate_limit now uid tr).1
      = decide (((tr.usage uid).filter (fun t => decide (now - t < 60))).length < 10) := rfl

lemma check_rate_limit_usage (now : ℤ) (uid : String) (tr : Tracker) (u : String) :
    (check_rate_limit now uid tr).2.usage u
      = if u = uid then (tr.usage uid).filter (fun t => decide (now - t < 60))
        else tr.usage u := rfl

/-- C1: a row whose status already holds the done marker, or whose revert
message is empty, produces no effect at all on a `check_reverts` tick — no
message to its user, no status-cell write — so a Done row is never
re-delivered and an empty-message row stays untouched. -/
theorem c1_done_or_empty_row_untouched (env : Env) (i : Nat) (row : RevertRow)
    (h : row.revertSent = "done" ∨ row.revert = []) :
    processRow env i row = [] := by
  unfold processRow
  rw [if_neg]
  rintro ⟨h1, h2⟩
  rcases h with h | h
  · exact h2 h
  · exact h1 h

theorem c1_witness :
    processRow envAllOk 0 ⟨"3", lit "hi", "done"⟩ = [] :=
  c1_done_or_empty_row_untouched envAllOk 0 ⟨"3", lit "hi", "done"⟩ (Or.inl rfl)

/-- C2: `check_rate_limit` prunes the actor's window to the timestamps less
than 60 seconds old, stores the pruned window back, and returns true iff
fewer than 10 remain; consequently eleven admitted-and-recorded calls at one
instant yield ten admissions then a refusal, and at 60 seconds later the
pruned-out timestamps admit the actor again. -/
theorem c2_rate_limit_window (now : ℤ) (uid : String) (tr : Tracker) :
    ((check_rate_limit now uid tr).1 = true ↔
        ((tr.usage uid).filter (fun t => decide (now - t < 60))).length < 10)
    ∧ (check_rate_limit now uid tr).2.usage uid
        = (tr.usage uid).filter (fun t => decide (now - t < 60))
    ∧ (runCalls "u" (List.replicate 11 (0:ℤ)) emptyTracker).1
        = List.replicate 10 true ++ [false]
    ∧ (check_rate_limit 60 "u"
          (runCalls "u" (List.replicate 11 (0:ℤ)) emptyTracker).2).1 = true := by
  refine ⟨?_, ?_, by decide, by decide⟩
  · rw [check_rate_limit_fst]
    exact decide_eq_true_iff
  · rw [check_rate_limit_usage]
    simp

/-- C8: re-checking the rate limit at the same instant without recording is
idempotent — the second call returns the same verdict and the same state —
and a check alone never appends a timestamp: the stored window is a sublist
of the previous one (the pruned timestamps removed), and other actors'
windows are untouched. -/
theorem c8_admit_is_pure_check (now : ℤ) (uid : String) (tr : Tracker) :
    check_rate_limit now uid (check_rate_limit now uid tr).2
      = check_rate_limit now uid tr
    ∧ (∀ u : String, (check_rate_limit now uid tr).2.usage u
        = if u = uid then (tr.usage uid).filter (fun t => decide (now - t < 60))
          else tr.usage u)
    ∧ List.Sublist ((check_rate_limit now uid tr).2.usage uid) (tr.usage uid) := by
  have hkey : ((check_rate_limit now uid tr).2.usage uid).filter
        (fun t => decide (now - t < 60))
      = (tr.usage uid).filter (fun t => decide (now - t < 60)) := by
    rw [check_rate_limit_usage]
    simp [List.filter_filter]
  refine ⟨?_, fun u => check_rate_limit_usage now uid tr u, ?_⟩
  · apply Prod.ext
    · rw [check_rate_limit_fst, check_rate_limit_fst, hkey]
    · apply Tracker.ext
      funext u
      by_cases hu : u = uid
      · subst hu
        simp [check_rate_limit_usage, List.filter_filter]
      · simp [check_rate_limit_usage, hu]
  · rw [check_rate_limit_usage]
    simp [List.filter_sublist]

/-- C5: the pending row whose message is the two lines `Please resubmit` and
`https://x/y.png` is delivered with text `Please resubmit` and exactly one
attachment named `y.png` when the image fetch answers 200; when it answers a
non-success status, the delivery carries the text only and the row is still
marked done. -/
theorem c5_two_line_revert_scenario :
    processRow envC5ok 0 rowC5
      = [Ev.sent "7" (some (lit "Please resubmit")) (some [(lit "y.png", lit "IMG")]),
         Ev.wroteCell 2 9 "done"]
    ∧ processRow envC5bad 0 rowC5
      = [Ev.sent "7" (some (lit "Please resubmit")) none, Ev.wroteCell 2 9 "done"] := by
  exact ⟨by decide, by decide⟩

lemma collectParts_all_dropped (env : Env) (parts : List (List Char))
    (h : ∀ part ∈ parts, isImageLine part = true
        ∧ ∃ st body, env.imgGet (pyStrip part) = Except.ok (st, body) ∧ st ≠ 200) :
    collectParts env parts = Except.ok ([], []) := by
  induction parts with
  | nil => rfl
  | cons p rest ih =>
    obtain ⟨him, st, body, hg, hst⟩ := h p (List.mem_cons_self p rest)
    have hr := ih (fun q hq => h q (List.mem_cons_of_mem p hq))
    simp [collectParts, him, hg, hr, hst]

/-- C4: a pending row with a non-empty message all of whose lines are image
links whose fetches all answer a non-200 status nets to an empty delivery
(content `None`, files `None`), which is still sent and the row still marked
done rather than retried. -/
theorem c4_all_dropped_still_done (env : Env) (i : Nat) (row : RevertRow)
    (h1 : row.revert ≠ [])
    (h2 : row.revertSent ≠ "done")
    (h3 : env.fetchUserOk row.userId = true)
    (h4 : ∀ part ∈ splitOnChar '\n' row.revert, isImageLine part = true
        ∧ ∃ st body, env.imgGet (pyStrip part) = Except.ok (st, body) ∧ st ≠ 200)
    (h5 : env.sendOk row.userId = true)
    (h6 : env.updateCellOk (i + 2) 9 = true) :
    processRow env i row
      = [Ev.sent row.userId none none, Ev.wroteCell (i + 2) 9 "done"] := by
  simp [processRow, h1, h2, h3, collectParts_all_dropped env _ h4, h5, h6, joinWith]

theorem c4_witness :
    processRow envC4 0 rowC4 = [Ev.sent "5" none none, Ev.wroteCell 2 9 "done"] := by
  have h4 : ∀ part ∈ splitOnChar '\n' rowC4.revert, isImageLine part = true
      ∧ ∃ st body, envC4.imgGet (pyStrip part) = Except.ok (st, body) ∧ st ≠ 200 := by
    intro part hp
    have hs : splitOnChar '\n' rowC4.revert = [lit "https://a/b.png"] := by decide
    rw [hs] at hp
    have hpart : part = lit "https://a/b.png" := by simpa using hp
    subst hpart
    exact ⟨by decide, 404, [], rfl, by decide⟩
  have h := c4_all_dropped_still_done envC4 0 rowC4 (by decide) (by decide) rfl h4 rfl rfl
  simpa using h

end NoosphereBot

namespace NoosphereBot

lemma processRows_append (env : Env) (pre post : List RevertRow) :
    ∀ i, processRows env i (pre ++ post)
      = processRows env i pre ++ processRows env (i + pre.length) post := by
  induction pre with
  | nil => intro i; simp [processRows]
  | cons r rest ih =>
    intro i
    have harith : i + 1 + rest.length = i + (rest.length + 1) := by omega
    simp [processRows, ih (i + 1), harith]

/-- C7: if any step of a row's processing raises (user resolution, an image
fetch, the send, or the status write), the exception is caught and logged,
the row's status cell is not written (so it stays pending for the next
tick), and the remaining rows of the same tick are still processed exactly
as they would be on their own. -/
theorem c7_row_failure_contained (env : Env) (pre post : List RevertRow)
    (r : RevertRow) (i : Nat)
    (hcond : r.revert ≠ [] ∧ r.revertSent ≠ "done")
    (hfail : env.fetchUserOk r.userId = false
        ∨ (∃ e, collectParts env (splitOnChar '\n' r.revert) = Except.error e)
        ∨ env.sendOk r.userId = false
        ∨ env.updateCellOk (i + pre.length + 2) 9 = false) :
    (Ev.logged r.userId ∈ processRow env (i + pre.length) r)
    ∧ (∀ a b v, Ev.wroteCell a b v ∉ processRow env (i + pre.length) r)
    ∧ processRows env i (pre ++ r :: post)
        = processRows env i pre ++ processRow env (i + pre.length) r
          ++ processRows env (i + pre.length + 1) post := by
  refine ⟨?_, ?_, ?_⟩
  case refine_3 =>
    rw [processRows_append]
    simp [processRows]
  all_goals
    cases hfu : env.fetchUserOk r.userId with
    | false => simp [processRow, hcond, hfu]
    | true =>
      cases hcp : collectParts env (splitOnChar '\n' r.revert) with
      | error e => simp [processRow, hcond, hfu, hcp]
      | ok p =>
        obtain ⟨ts, fs⟩ := p
        have hrest : env.sendOk r.userId = false
            ∨ env.updateCellOk (i + pre.length + 2) 9 = false := by
          rcases hfail with h | h | h | h
          · rw [hfu] at h; exact absurd h (by simp)
          · obtain ⟨e, he⟩ := h; rw [hcp] at he; exact absurd he (by simp)
          · exact Or.inl h
          · exact Or.inr h
        rcases hrest with h | h
        · simp [processRow, hcond, hfu, hcp, h]
        · cases hs : env.sendOk r.userId with
          | false => simp [processRow, hcond, hfu, hcp, hs]
          | true => simp [processRow, hcond, hfu, hcp, hs, h]

theorem c7_witness :
    (Ev.logged "42" ∈ processRow envC7 0 rowC7)
    ∧ (∀ a b v, Ev.wroteCell a b v ∉ processRow envC7 0 rowC7)
    ∧ processRows envC7 0 ([] ++ rowC7 :: [rowC7b])
        = processRows envC7 0 [] ++ processRow envC7 0 rowC7
          ++ processRows envC7 1 [rowC7b] := by
  have h := c7_row_failure_contained envC7 [] [rowC7b] rowC7 0
    ⟨by decide, by decide⟩ (Or.inl rfl)
  simpa using h

/-- C9: a message line is classified as an image link iff its
whitespace-stripped form starts with `http` and its lowercased form contains
one of `.jpg`, `.jpeg`, `.png`, `.gif` anywhere as a substring — so a URL
with a query string such as `https://x/y.png?size=large` qualifies while a
non-URL line mentioning `.png` does not — and non-image lines are kept as
stripped text segments in their original order. -/
theorem c9_image_line_classification :
    (∀ part : List Char, isImageLine part =
        (startsWithL (pyStrip part) (lit "http") &&
         ([lit ".jpg", lit ".jpeg", lit ".png", lit ".gif"].any
           (fun ext => containsSub (lowerL part) ext))))
    ∧ isImageLine (lit "https://x/y.png?size=large") = true
    ∧ isImageLine (lit "the file scan.png is attached") = false
    ∧ collectParts envAllOk [lit "first", lit "https://x/y.png", lit " second "]
        = Except.ok ([lit "first", lit "second"], [(lit "y.png", lit "D")]) :=
  ⟨fun _ => rfl, rfl, rfl, rfl⟩

/-- C10: a row is acted on by the reconciler iff its message is non-empty and
its status cell differs from the exact lowercase string `done`; markers such
as `Done`, `DONE`, or `done ` count as not delivered, and such a row is
re-delivered (and its cell overwritten) on every tick that reads it. -/
theorem c10_pending_iff_not_exact_done :
    (∀ (env : Env) (i : Nat) (row : RevertRow),
        processRow env i row ≠ [] ↔ (row.revert ≠ [] ∧ row.revertSent ≠ "done"))
    ∧ processRow envAllOk 0 ⟨"3", lit "bye", "Done"⟩
        = [Ev.sent "3" (some (lit "bye")) none, Ev.wroteCell 2 9 "done"]
    ∧ processRow envAllOk 0 ⟨"3", lit "bye", "DONE"⟩
        = [Ev.sent "3" (some (lit "bye")) none, Ev.wroteCell 2 9 "done"]
    ∧ processRow envAllOk 0 ⟨"3", lit "bye", "done "⟩
        = [Ev.sent "3" (some (lit "bye")) none, Ev.wroteCell 2 9 "done"]
    ∧ processRow envAllOk 0 ⟨"3", lit "bye", "done"⟩ = [] := by
  refine ⟨?_, by decide, by decide, by decide, by decide⟩
  intro env i row
  constructor
  · intro hne
    by_contra hcond
    apply hne
    unfold processRow
    exact if_neg hcond
  · intro hcond
    unfold processRow
    rw [if_pos hcond]
    cases hfu : env.fetchUserOk row.userId with
    | false => simp
    | true =>
      cases hcp : collectParts env (splitOnChar '\n' row.revert) with
      | error e => simp
      | ok p =>
        obtain ⟨ts, fs⟩ := p
        cases hs : env.sendOk row.userId with
        | false => simp
        | true =>
          cases hu : env.updateCellOk (i + 2) 9 with
          | false => simp
          | true => simp

/-- C3 counterexample: a document whose body references inline object `x`
while the inline-object table has no entry for it renders to the text
`[image:x]` — the placeholder of a body reference survives in the final
text, contradicting the claim that no placeholder ever remains. -/
theorem c3_counterexample :
    (fetch_doc_content_and_images denvFail none docDangling).1 = lit "[image:x]"
    ∧ containsSub (fetch_doc_content_and_images denvFail none docDangling).1
        (lit "[image:x]") = true :=
  ⟨rfl, rfl⟩

/-- C3 amended: the rendered text never depends on the image-fetch outcomes
at all, so a placeholder whose id is in the id-to-URI mapping is stripped
whether or not its fetch succeeds (shown on a concrete document under a
failing and a succeeding fetch environment, together with the corresponding
attachment lists); only a reference whose inline-object entry is missing or
malformed keeps its placeholder. -/
theorem c3_amended_strip_only_mapped :
    (∀ (e1 e2 : DocEnv) (roles : Option (List Role)) (doc : GDoc),
        (fetch_doc_content_and_images e1 roles doc).1
          = (fetch_doc_content_and_images e2 roles doc).1)
    ∧ (fetch_doc_content_and_images denvFail none docMapped).1 = lit "Hello"
    ∧ (fetch_doc_content_and_images denvOk none docMapped).1 = lit "Hello"
    ∧ containsSub (fetch_doc_content_and_images denvFail none docMapped).1
        (lit "[image:a]") = false
    ∧ (fetch_doc_content_and_images denvOk none docMapped).2
        = [(lit "image_a.png", lit "BYTES")]
    ∧ (fetch_doc_content_and_images denvFail none docMapped).2 = [] :=
  ⟨fun _ _ _ _ => rfl, rfl, rfl, rfl, rfl, rfl⟩

/-- C6 counterexample: an admitted broadcast whose rendered result has empty
text but one image produces two outbound channel messages — a first send
with null content followed by the image message — not only the image
message as the claim states. -/
theorem c6_counterexample :
    ((announce true 0 "u" (lit "#c") emptyTracker
        (Except.ok (([] : List Char), [(lit "image_a.png", lit "D")]))).1.filter
      isChannelMsg)
      = [AnnEv.channelSend none, AnnEv.channelFiles [(lit "image_a.png", lit "D")]]
    ∧ ((announce true 0 "u" (lit "#c") emptyTracker
        (Except.ok (([] : List Char), [(lit "image_a.png", lit "D")]))).1.filter
      isChannelMsg)
      ≠ [AnnEv.channelFiles [(lit "image_a.png", lit "D")]] :=
  ⟨rfl, by decide⟩

/-- C6 amended: for an admitted broadcast whose rendered result is non-empty,
the dispatcher always issues a first channel message whose content is the
rendered text when non-empty and null otherwise, then the images as a second
message exactly when there is at least one — at most two channel messages,
in that order — for both the slash and the prefixed command; in particular
empty text with non-empty images yields a null-content message followed by
the image message. -/
theorem c6_amended_dispatch_order (now : ℤ) (uid : String) (mention : List Char)
    (tr : Tracker) (text : List Char) (images : List (List Char × List Char))
    (hrl : (check_rate_limit now uid tr).1 = true)
    (hne : ¬(text = [] ∧ images = [])) :
    (announce true now uid mention tr (Except.ok (text, images))).1
      = [AnnEv.channelSend (if text = [] then none else some text)]
        ++ (if images = [] then [] else [AnnEv.channelFiles images])
        ++ [AnnEv.notice (lit "Announcement sent to " ++ mention ++ lit ".")]
    ∧ (announce_cmd true now uid tr (Except.ok (text, images))).1
      = [AnnEv.channelSend (if text = [] then none else some text)]
        ++ (if images = [] then [] else [AnnEv.channelFiles images]) := by
  constructor
  · simp [announce, hrl, hne]
  · simp [announce_cmd, hrl, hne]

theorem c6_witness :
    (announce true 0 "u" (lit "#general") emptyTracker
        (Except.ok (lit "hello", ([] : List (List Char × List Char))))).1
      = [AnnEv.channelSend (some (lit "hello")),
         AnnEv.notice (lit "Announcement sent to #general.")]
    ∧ (announce_cmd true 0 "u" emptyTracker
        (Except.ok (lit "hello", ([] : List (List Char × List Char))))).1
      = [AnnEv.channelSend (some (lit "hello"))] := by
  have h := c6_amended_dispatch_order 0 "u" (lit "#general") emptyTracker
    (lit "hello") [] (by decide) (by decide)
  exact h

end NoosphereBot
